import Mathlib

/-!
Shallow embedding of `x-pack/functionbeat/manager/gcp/template_builder.go`
(package `gcp` of the beats repository): the GCP template builder that
resolves a named function, bundles its resource files into an archive and
renders the request body used to deploy the function.

Go maps (`common.MapStr`) are modelled as association lists in insertion
order; Go `time.Duration` is an `Int` count of nanoseconds; byte slices are
`List Nat`.  Methods are modelled as functions taking the receiver fields
they read.  Logging calls (`d.log.Debug…`) have no observable effect on the
returned values and are dropped.
-/

namespace GcpTemplateBuilder

/-- Error values crossing the interfaces of the builder.  The Go code works
with the `error` interface; the variants below distinguish the error sources
named by the design (registry lookup failure, capability mismatch, file
input/output failure, configuration unpacking failure), each carrying its
message. -/
inductive Err where
  | notFound : String → Err
  | typeMismatch : String → Err
  | ioError : String → Err
  | unpackError : String → Err
deriving DecidableEq, Repr

/-- Event trigger of a function: provider-defined structured data that the
renderer passes through unmodified (`config.Trigger`). -/
structure EventTrigger where
  eventType : String := ""
  resource : String := ""
deriving DecidableEq, Repr

/-- Modelled from the spec: `fngcp.FunctionConfig`, the typed configuration
of one GCP function (its Go source lives outside the covered file).  Fields
follow section 3 of the design: `description`, `entryPoint` (the Go code
reads it through the accessor `EntryPoint()`), the structured `trigger`, and
the six optional values `timeout` (duration in nanoseconds, zero means
unset), `memorySize`, `serviceAccountEmail`, `labels`, `maxInstances`,
`vpcConnector`. -/
structure FunctionConfig where
  description : String := ""
  entryPoint : String := ""
  trigger : EventTrigger := {}
  timeout : Int := 0
  memorySize : Int := 0
  serviceAccountEmail : String := ""
  labels : List (String × String) := []
  maxInstances : Int := 0
  vpcConnector : String := ""
deriving DecidableEq, Repr

/-- Modelled from the spec: the provider `Config` unpacked at construction
time (its Go source lives outside the covered file).  Section 6 of the
design names the three identifiers the renderer reads: project, location
and storage bucket. -/
structure Config where
  projectID : String := ""
  location : String := ""
  functionStorage : String := ""
deriving DecidableEq, Repr

/-- Values stored in a rendered request body (`common.MapStr` entries). -/
inductive Value where
  | str : String → Value
  | int : Int → Value
  | trigger : EventTrigger → Value
  | strMap : List (String × String) → Value
deriving DecidableEq, Repr

/-- The Go constant `runtime = "go111"`. -/
def runtime : String := "go111"

/-- The Go format string `sourceArchiveURL = "gs://%s/%s"` applied to the
storage bucket and the function name. -/
def sourceArchiveURL (storage name : String) : String :=
  "gs://" ++ storage ++ "/" ++ name

/-- The Go format string `locationTemplate = "projects/%s/locations/%s"`
applied to the project and location identifiers. -/
def locationTemplate (project location : String) : String :=
  "projects/" ++ project ++ "/locations/" ++ location

/-- The Go format string `functionName = locationTemplate + "/functions/%s"`
applied to project, location and function name. -/
def functionName (project location name : String) : String :=
  locationTemplate project location ++ "/functions/" ++ name

/-- One digit as a character, for the duration printer. -/
def digitChar (d : Nat) : Char := Char.ofNat (48 + d % 10)

/-- Worker of the fraction printer: walks the `prec` least significant
decimal digits of `v` from the least significant up, skipping digits until
the first non-zero one, then prepending every further digit, exactly as the
right-to-left buffer writes of the Go original. -/
def fmtFracAux : Nat → Nat → Bool → String → String × Nat
  | 0, v, print, acc => (if print then "." ++ acc else acc, v)
  | prec + 1, v, print, acc =>
    let digit := v % 10
    let print' := print || digit ≠ 0
    let acc' := if print' then String.mk [digitChar digit] ++ acc else acc
    fmtFracAux prec (v / 10) print' acc'

/-- Modelled from the spec: the fraction printer `fmtFrac` of Go's
`time.Duration.String` (standard library, rendered as a duration string).
Returns the textual fraction of `v` over ten to the `prec` (with its leading
dot, trailing zeros omitted, empty when the fraction is zero) together with
`v` shifted right by `prec` decimal digits. -/
def fmtFrac (prec v : Nat) : String × Nat :=
  fmtFracAux prec v false ""

/-- Modelled from the spec: Go's `time.Duration.String` (standard library),
which renders a nanosecond count the way the builder puts it into the
`timeout` field, e.g. thirty seconds as a string of the digits three and
zero followed by the letter s. -/
def durationString (d : Int) : String :=
  let u : Nat := d.natAbs
  let core : String :=
    if u < 1000000000 then
      if u = 0 then "0s"
      else if u < 1000 then toString u ++ "ns"
      else if u < 1000000 then
        let (frac, v) := fmtFrac 3 u
        toString v ++ frac ++ "µs"
      else
        let (frac, v) := fmtFrac 6 u
        toString v ++ frac ++ "ms"
    else
      let (frac, v) := fmtFrac 9 u
      let secPart := toString (v % 60) ++ frac ++ "s"
      let m := v / 60
      if m = 0 then secPart
      else
        let minPart := toString (m % 60) ++ "m" ++ secPart
        let h := m / 60
        if h = 0 then minPart else toString h ++ "h" ++ minPart
  if d < 0 then "-" ++ core else core

/-- The method `defaultTemplateBuilder.requestBody`, taking the receiver
field `d.gcpConfig` it reads.  Builds the mandatory seven entries, then adds
each optional entry exactly under the Go guard (`config.Timeout > 0`,
`config.MemorySize > 0`, `len(...) > 0`, `config.MaxInstances > 0`). -/
def requestBody (gcpConfig : Config) (name : String) (config : FunctionConfig) :
    List (String × Value) :=
  let fnName := functionName gcpConfig.projectID gcpConfig.location name
  let body : List (String × Value) := [
    ("name", Value.str fnName),
    ("description", Value.str config.description),
    ("entryPoint", Value.str config.entryPoint),
    ("runtime", Value.str runtime),
    ("sourceArchiveUrl", Value.str (sourceArchiveURL gcpConfig.functionStorage name)),
    ("eventTrigger", Value.trigger config.trigger),
    ("environmentVariables", Value.strMap [("ENABLED_FUNCTIONS", name)])]
  let body := if 0 < config.timeout then
      body ++ [("timeout", Value.str (durationString config.timeout))] else body
  let body := if 0 < config.memorySize then
      body ++ [("memorySize", Value.int config.memorySize)] else body
  let body := if 0 < config.serviceAccountEmail.length then
      body ++ [("serviceAccountEmail", Value.str config.serviceAccountEmail)] else body
  let body := if 0 < config.labels.length then
      body ++ [("labels", Value.strMap config.labels)] else body
  let body := if 0 < config.maxInstances then
      body ++ [("maxInstances", Value.int config.maxInstances)] else body
  let body := if 0 < config.vpcConnector.length then
      body ++ [("vpcConnector", Value.str config.vpcConnector)] else body
  body

/-- A `bundle.LocalFile`: one file to include in the deployable archive,
holding its relative path and its permission mode.  The only kind of
`bundle.Resource` this package constructs. -/
structure LocalFile where
  path : String
  fileMode : Nat
deriving DecidableEq, Repr

/-- Go's `strings.Join` with the slash separator: the elements concatenated
with a slash between consecutive ones. -/
def joinSlash : List String → String
  | [] => ""
  | [s] => s
  | s :: s2 :: rest => s ++ "/" ++ joinSlash (s2 :: rest)

/-- Splits a character list at every slash, keeping empty segments, as the
path cleaner of Go's `path/filepath` walks a path segment by segment. -/
def splitSegs : List Char → List (List Char)
  | [] => [[]]
  | c :: cs =>
    if c = '/' then [] :: splitSegs cs
    else
      match splitSegs cs with
      | [] => [[c]]
      | s :: rest => (c :: s) :: rest

/-- One step of Go's `filepath.Clean` applied to a relative path (the only
shape this package joins): the accumulator holds the kept segments in
reverse; an empty or dot segment is dropped, a dot-dot segment pops the
previous segment when one is available and is kept otherwise. -/
def cleanPush (acc : List (List Char)) (seg : List Char) : List (List Char) :=
  if seg = [] ∨ seg = ['.'] then acc
  else if seg = ['.', '.'] then
    match acc with
    | [] => [['.', '.']]
    | a :: rest => if a = ['.', '.'] then seg :: a :: rest else rest
  else seg :: acc

/-- Go's `filepath.Clean` restricted to relative slash-separated paths (the
rooted-path cases of the Go original cannot arise here, every joined path
starts with the literal segment pkg). -/
def filepathClean (p : String) : String :=
  let out := ((splitSegs p.data).foldl cleanPush []).reverse
  if out = [] then "."
  else joinSlash (out.map String.mk)

/-- Go's `filepath.Join` with the slash separator: starting from the first
non-empty element, join the remaining elements with slashes and clean the
result; all-empty input gives the empty string. -/
def filepathJoin : List String → String
  | [] => ""
  | e :: rest =>
    if e = "" then filepathJoin rest
    else filepathClean (joinSlash (e :: rest))

/-- The function `zipResources(typeName)`: the three files bundled for one
function type — the source file with mode 0755 and the two dependency
manifests with mode 0655, all under the directory of the type name. -/
def zipResources (typeName : String) : List LocalFile :=
  [⟨filepathJoin ["pkg", typeName, typeName ++ ".go"], 0o755⟩,
   ⟨filepathJoin ["pkg", typeName, "go.mod"], 0o655⟩,
   ⟨filepathJoin ["pkg", typeName, "go.sum"], 0o655⟩]

/-- The exported function `ZipResources()`, taking the registry enumeration
`provider.ListFunctions` it calls: on enumeration failure it returns the
empty (nil) list, otherwise the concatenation of `zipResources` over every
returned type name, in order. -/
def ZipResources (listFunctions : String → Except Err (List String)) : List LocalFile :=
  match listFunctions "gcp" with
  | .error _ => []
  | .ok functions => (functions.map zipResources).flatten

/-- A resolved function object that supports the `installer` capability:
`Name()` and `Config()` are modelled as fields. -/
structure InstallerFn where
  name : String
  config : FunctionConfig
deriving DecidableEq, Repr

/-- An object returned by the registry lookup: either it supports the
`installer` capability or it is some other function object (the failed Go
type assertion `fn.(installer)`). -/
inductive RegistryObject where
  | installerObj : InstallerFn → RegistryObject
  | otherObj : RegistryObject
deriving DecidableEq, Repr

/-- The external provider registry, consumed through its single lookup
method `FindFunctionByName`. -/
structure Provider where
  findFunctionByName : String → Except Err RegistryObject

/-- The function `findFunction(p, name)`: registry lookup followed by the
capability check, failing with the Go message when the resolved object is
not an `installer`. -/
def findFunction (p : Provider) (name : String) : Except Err InstallerFn :=
  match p.findFunctionByName name with
  | .error e => .error e
  | .ok fn =>
    match fn with
    | .installerObj function => .ok function
    | .otherObj =>
      .error (.typeMismatch "incompatible type received, expecting: \x27functionManager\x27")

/-- One entry of the assembled archive: relative path, permission mode and
file content. -/
structure ArchiveEntry where
  path : String
  mode : Nat
  content : List Nat
deriving DecidableEq, Repr

/-- Modelled from the spec: `core.MakeZip` (its Go source lives outside the
covered file), the archive assembler of section 4.1.  Reads every resource
from the external filesystem and produces an archive preserving relative
paths and permission modes in input order; unreadable input fails the whole
call with an input/output error and no partial archive.  Compression at the
byte level is out of scope; the archive is modelled as its entry list. -/
def MakeZip (fs : String → Option (List Nat)) : List LocalFile → Except Err (List ArchiveEntry)
  | [] => .ok []
  | r :: rest =>
    match fs r.path with
    | none => .error (.ioError r.path)
    | some content =>
      match MakeZip fs rest with
      | .error e => .error e
      | .ok entries => .ok (⟨r.path, r.fileMode, content⟩ :: entries)

/-- The `functionData` pair produced by a successful build: the archive and
the rendered request body. -/
structure FunctionData where
  raw : List ArchiveEntry
  requestBody : List (String × Value)
deriving DecidableEq, Repr

/-- The method `defaultTemplateBuilder.execute`, taking the receiver fields
`d.provider` and `d.gcpConfig` it reads and the external filesystem the
archive assembler consumes: resolve the function, assemble the archive from
`zipResources(fn.Name())`, and on success return the archive together with
the rendered request body. -/
def execute (p : Provider) (gcpConfig : Config) (fs : String → Option (List Nat))
    (name : String) : Except Err FunctionData :=
  match findFunction p name with
  | .error e => .error e
  | .ok fn =>
    match MakeZip fs (zipResources fn.name) with
    | .error e => .error e
    | .ok raw => .ok ⟨raw, requestBody gcpConfig name fn.config⟩

/-- Textual form of one request-body value, for the printable rendering. -/
def printValue : Value → String
  | .str s => "\x22" ++ s ++ "\x22"
  | .int i => toString i
  | .trigger t =>
    "\x7b\x22eventType\x22:\x22" ++ t.eventType ++ "\x22,\x22resource\x22:\x22" ++
      t.resource ++ "\x22\x7d"
  | .strMap m =>
    "\x7b" ++
      String.intercalate ","
        (m.map (fun kv => "\x22" ++ kv.1 ++ "\x22:\x22" ++ kv.2 ++ "\x22")) ++
      "\x7d"

/-- Modelled from the spec: `common.MapStr.StringToPrint` (its Go source
lives outside the covered file), the printable textual (JSON) form of a
request body used by the dry-run rendering. -/
def stringToPrint (body : List (String × Value)) : String :=
  "\x7b" ++
    String.intercalate ","
      (body.map (fun kv => "\x22" ++ kv.1 ++ "\x22:" ++ printValue kv.2)) ++
    "\x7d"

/-- The method `defaultTemplateBuilder.RawTemplate`, taking the receiver
fields it reads: resolve the function and return the printable text of its
rendered request body, with no archive assembly. -/
def RawTemplate (p : Provider) (gcpConfig : Config) (name : String) : Except Err String :=
  match findFunction p name with
  | .error e => .error e
  | .ok fn => .ok (stringToPrint (requestBody gcpConfig name fn.config))

/-- The external logger handed to the builder, identified by its name; the
builder only stores it (its debug calls affect no returned value). -/
structure Logger where
  name : String := ""
deriving DecidableEq, Repr

/-- The raw configuration object handed to `NewTemplateBuilder`, consumed
only through its `Unpack` result. -/
structure RawConfig where
  unpack : Except Err Config

/-- The builder struct `defaultTemplateBuilder`; the Go fields are pointers
or interfaces, so each is an `Option` whose `none` is the nil zero value. -/
structure DefaultTemplateBuilder where
  provider : Option Provider := none
  log : Option Logger := none
  gcpConfig : Option Config := none

/-- The constructor `NewTemplateBuilder`: unpack the provider configuration;
on failure return the zero-value builder together with the error, on success
the builder holding the supplied logger, unpacked configuration and
provider, with no error. -/
def NewTemplateBuilder (log : Logger) (cfg : RawConfig) (p : Provider) :
    DefaultTemplateBuilder × Option Err :=
  match cfg.unpack with
  | .error err => ({}, some err)
  | .ok gcpCfg => (⟨some p, some log, some gcpCfg⟩, none)

/-! Concrete fixtures used by the witnesses: a registry with one storage
function (the es-storage scenario of the design), one object without the
installer capability, and a filesystem holding the three storage files. -/

/-- Configuration of the sample storage function: thirty-second timeout,
256 megabytes, everything else at its default. -/
def sampleConfig : FunctionConfig :=
  { description := "sync events", entryPoint := "Handle",
    trigger := { eventType := "google.storage.object.finalize", resource := "b" },
    timeout := 30000000000, memorySize := 256 }

/-- Sample provider configuration. -/
def sampleGcpConfig : Config :=
  { projectID := "my-project", location := "europe-west1", functionStorage := "fnbucket" }

/-- Sample registry: es-storage resolves to an installer of type storage,
bad-fn resolves to an object without the installer capability, anything
else is not found. -/
def sampleProvider : Provider :=
  ⟨fun n =>
    if n = "es-storage" then .ok (.installerObj ⟨"storage", sampleConfig⟩)
    else if n = "bad-fn" then .ok .otherObj
    else .error (.notFound ("function " ++ n ++ " not found"))⟩

/-- Sample filesystem holding exactly the three storage files. -/
def sampleFs : String → Option (List Nat) := fun p =>
  if p = "pkg/storage/storage.go" then some [1, 2]
  else if p = "pkg/storage/go.mod" then some [3]
  else if p = "pkg/storage/go.sum" then some [4]
  else none

/-- A filesystem with no readable file at all. -/
def emptyFs : String → Option (List Nat) := fun _ => none

/-- The seven field names every rendered request body starts with. -/
def mandatoryFields : List String :=
  ["name", "description", "entryPoint", "runtime", "sourceArchiveUrl",
   "eventTrigger", "environmentVariables"]

/-- Appending one element under a guard equals appending the guarded
singleton: lets the conditional appends of the renderer normalize into a
plain chain of appends. -/
theorem append_ite_single {α : Type} (c : Prop) [Decidable c] (l : List α) (x : α) :
    (if c then l ++ [x] else l) = l ++ (if c then [x] else []) := by
  split <;> simp

/-- Association-list lookup distributes over append, preferring the left
list. -/
theorem lookup_append {α β : Type} [BEq α] (k : α) (l1 l2 : List (α × β)) :
    (l1 ++ l2).lookup k = (l1.lookup k).or (l2.lookup k) := by
  induction l1 with
  | nil => simp [List.lookup]
  | cons a l ih =>
    cases a with
    | mk x v =>
      simp only [List.cons_append, List.lookup]
      cases h : k == x <;> simp [ih]

/-- Lookup in a guarded singleton pushes the guard outside. -/
theorem lookup_guarded {α β : Type} [BEq α] (k k2 : α) (v : β) (c : Prop)
    [Decidable c] :
    ((if c then [(k2, v)] else [] : List (α × β)).lookup k)
      = if c then [(k2, v)].lookup k else none := by
  split <;> rfl

/-- Disjunction of a guarded some with a fallback folds into one guard. -/
theorem or_guarded {α : Type} (c : Prop) [Decidable c] (v : α) (o : Option α) :
    (if c then some v else none).or o = if c then some v else o := by
  split <;> simp

/-- C2: each of the six optional fields is present in the rendered request
body exactly when its source value is non-default, and carries the rendered
source value — `timeout` (present when the duration is positive, rendered
as its duration string), `memorySize` and `maxInstances` (present when
positive), `serviceAccountEmail`, `labels` and `vpcConnector` (present when
non-empty). -/
theorem requestBody_optional_iff (gcpConfig : Config) (name : String)
    (config : FunctionConfig) :
    ((requestBody gcpConfig name config).lookup "timeout"
      = if 0 < config.timeout then some (Value.str (durationString config.timeout))
        else none)
  ∧ ((requestBody gcpConfig name config).lookup "memorySize"
      = if 0 < config.memorySize then some (Value.int config.memorySize) else none)
  ∧ ((requestBody gcpConfig name config).lookup "serviceAccountEmail"
      = if 0 < config.serviceAccountEmail.length
        then some (Value.str config.serviceAccountEmail) else none)
  ∧ ((requestBody gcpConfig name config).lookup "labels"
      = if 0 < config.labels.length then some (Value.strMap config.labels) else none)
  ∧ ((requestBody gcpConfig name config).lookup "maxInstances"
      = if 0 < config.maxInstances then some (Value.int config.maxInstances) else none)
  ∧ ((requestBody gcpConfig name config).lookup "vpcConnector"
      = if 0 < config.vpcConnector.length then some (Value.str config.vpcConnector)
        else none) := by
  refine ⟨?_, ?_, ?_, ?_, ?_, ?_⟩ <;>
  · simp only [requestBody, append_ite_single]
    simp only [List.append_assoc]
    simp [lookup_append, lookup_guarded, or_guarded, List.lookup]

/-- C3: a rendered request body always starts with exactly the seven
mandatory fields, and when every optional value is at its zero or empty
default it consists of those seven fields and nothing else. -/
theorem requestBody_mandatory_fields (gcpConfig : Config) (name : String)
    (config : FunctionConfig) :
    (((requestBody gcpConfig name config).map Prod.fst).take 7 = mandatoryFields)
  ∧ (config.timeout = 0 → config.memorySize = 0 → config.serviceAccountEmail = "" →
     config.labels = [] → config.maxInstances = 0 → config.vpcConnector = "" →
     (requestBody gcpConfig name config).map Prod.fst = mandatoryFields) := by
  constructor
  · simp only [requestBody, append_ite_single]
    simp only [List.append_assoc]
    rfl
  · intro h1 h2 h3 h4 h5 h6
    simp [requestBody, mandatoryFields, h1, h2, h3, h4, h5, h6]

/-- Witness for C3: with every optional value defaulted, the rendered body
has exactly the seven mandatory keys. -/
theorem requestBody_mandatory_fields_witness :
    (((requestBody sampleGcpConfig "fn" {}).map Prod.fst).take 7 = mandatoryFields)
  ∧ (requestBody sampleGcpConfig "fn" {}).map Prod.fst = mandatoryFields :=
  ⟨(requestBody_mandatory_fields sampleGcpConfig "fn" {}).1,
   (requestBody_mandatory_fields sampleGcpConfig "fn" {}).2 rfl rfl rfl rfl rfl rfl⟩

/-- C4: the environmentVariables mapping of every rendered request body is
the single entry ENABLED_FUNCTIONS bound to the rendered function name. -/
theorem requestBody_env_vars (gcpConfig : Config) (name : String)
    (config : FunctionConfig) :
    (requestBody gcpConfig name config).lookup "environmentVariables"
      = some (Value.strMap [("ENABLED_FUNCTIONS", name)]) := by
  simp only [requestBody, append_ite_single]
  simp only [List.append_assoc]
  simp [lookup_append, lookup_guarded, or_guarded, List.lookup]

/-- C5: the name field of every rendered request body is the fully
qualified path built from the configured project, the configured location
and the function name. -/
theorem requestBody_name_field (gcpConfig : Config) (name : String)
    (config : FunctionConfig) :
    (requestBody gcpConfig name config).lookup "name"
      = some (Value.str ("projects/" ++ gcpConfig.projectID ++ "/locations/"
          ++ gcpConfig.location ++ "/functions/" ++ name)) := by
  simp only [requestBody, append_ite_single]
  simp only [List.append_assoc]
  simp [lookup_append, lookup_guarded, or_guarded, List.lookup, functionName,
    locationTemplate]

/-- C7: resolution returns a descriptor exactly when the registry lookup
succeeds with an object supporting the installer capability — a registry
error (in particular the not-found error for an unregistered name) is
propagated unchanged with no descriptor, and a resolved object without the
capability yields the descriptive type-mismatch error instead of a
descriptor. -/
theorem findFunction_cases (p : Provider) (name : String) :
    (∀ e, p.findFunctionByName name = .error e → findFunction p name = .error e)
  ∧ (p.findFunctionByName name = .ok .otherObj →
      findFunction p name
        = .error (.typeMismatch "incompatible type received, expecting: \x27functionManager\x27"))
  ∧ (∀ f, p.findFunctionByName name = .ok (.installerObj f) →
      findFunction p name = .ok f) := by
  refine ⟨fun e h => ?_, fun h => ?_, fun f h => ?_⟩ <;> simp [findFunction, h]

/-- Witness for C7: in the sample registry, an unregistered name propagates
the not-found error, an object without the capability yields the
type-mismatch error, and the storage function resolves. -/
theorem findFunction_cases_witness :
    sampleProvider.findFunctionByName "missing-fn"
        = .error (.notFound "function missing-fn not found")
  ∧ findFunction sampleProvider "missing-fn"
        = .error (.notFound "function missing-fn not found")
  ∧ sampleProvider.findFunctionByName "bad-fn" = .ok .otherObj
  ∧ findFunction sampleProvider "bad-fn"
        = .error (.typeMismatch "incompatible type received, expecting: \x27functionManager\x27")
  ∧ sampleProvider.findFunctionByName "es-storage"
        = .ok (.installerObj ⟨"storage", sampleConfig⟩)
  ∧ findFunction sampleProvider "es-storage" = .ok ⟨"storage", sampleConfig⟩ :=
  ⟨rfl, (findFunction_cases sampleProvider "missing-fn").1 _ rfl,
   rfl, (findFunction_cases sampleProvider "bad-fn").2.1 rfl,
   rfl, (findFunction_cases sampleProvider "es-storage").2.2 _ rfl⟩

/-- C6: the build is all-or-nothing — when resolution fails, or when
resolution succeeds but archive assembly fails, `execute` returns exactly
that error and no function data (so no archive bytes and no request body,
which in particular is never rendered in the assembly-failure case). -/
theorem execute_all_or_nothing (p : Provider) (gcpConfig : Config)
    (fs : String → Option (List Nat)) (name : String) :
    (∀ e, findFunction p name = .error e →
        execute p gcpConfig fs name = .error e)
  ∧ (∀ fn e, findFunction p name = .ok fn →
        MakeZip fs (zipResources fn.name) = .error e →
        execute p gcpConfig fs name = .error e) := by
  constructor
  · intro e h
    simp [execute, h]
  · intro fn e h hz
    simp [execute, h, hz]

/-- Witness for C6: with the sample registry, an unresolvable name fails
the build with the lookup error, and an unreadable filesystem fails the
build of the storage function with the input-output error of its first
file. -/
theorem execute_all_or_nothing_witness :
    findFunction sampleProvider "missing-fn"
        = .error (.notFound "function missing-fn not found")
  ∧ execute sampleProvider sampleGcpConfig sampleFs "missing-fn"
        = .error (.notFound "function missing-fn not found")
  ∧ findFunction sampleProvider "es-storage" = .ok ⟨"storage", sampleConfig⟩
  ∧ MakeZip emptyFs (zipResources "storage")
        = .error (.ioError "pkg/storage/storage.go")
  ∧ execute sampleProvider sampleGcpConfig emptyFs "es-storage"
        = .error (.ioError "pkg/storage/storage.go") :=
  ⟨rfl,
   (execute_all_or_nothing sampleProvider sampleGcpConfig sampleFs "missing-fn").1 _ rfl,
   rfl, rfl,
   (execute_all_or_nothing sampleProvider sampleGcpConfig emptyFs "es-storage").2
     ⟨"storage", sampleConfig⟩ _ rfl rfl⟩

/-- C8: the dry-run rendering fails exactly when resolution fails, with the
same error as the build, and on successful resolution returns the printable
text of precisely the request body a successful build carries — and it does
so without consuming any filesystem (its definition takes none). -/
theorem rawTemplate_matches_build (p : Provider) (gcpConfig : Config)
    (fs : String → Option (List Nat)) (name : String) :
    (∀ e, findFunction p name = .error e →
        RawTemplate p gcpConfig name = .error e
      ∧ execute p gcpConfig fs name = .error e)
  ∧ (∀ fn, findFunction p name = .ok fn →
        RawTemplate p gcpConfig name
          = .ok (stringToPrint (requestBody gcpConfig name fn.config))
      ∧ ∀ fd, execute p gcpConfig fs name = .ok fd →
          fd.requestBody = requestBody gcpConfig name fn.config) := by
  constructor
  · intro e h
    exact ⟨by simp [RawTemplate, h], by simp [execute, h]⟩
  · intro fn h
    refine ⟨by simp [RawTemplate, h], ?_⟩
    intro fd hfd
    rcases hz : MakeZip fs (zipResources fn.name) with e | raw <;>
      simp [execute, h, hz] at hfd
    rw [← hfd]

/-- Witness for C8: for the unregistered name both operations fail with the
not-found error, and for the storage function the dry run prints exactly
the body the successful build carries. -/
theorem rawTemplate_matches_build_witness :
    findFunction sampleProvider "missing-fn"
        = .error (.notFound "function missing-fn not found")
  ∧ RawTemplate sampleProvider sampleGcpConfig "missing-fn"
        = .error (.notFound "function missing-fn not found")
  ∧ findFunction sampleProvider "es-storage" = .ok ⟨"storage", sampleConfig⟩
  ∧ RawTemplate sampleProvider sampleGcpConfig "es-storage"
        = .ok (stringToPrint (requestBody sampleGcpConfig "es-storage" sampleConfig)) :=
  ⟨rfl,
   ((rawTemplate_matches_build sampleProvider sampleGcpConfig sampleFs "missing-fn").1
     _ rfl).1,
   rfl,
   ((rawTemplate_matches_build sampleProvider sampleGcpConfig sampleFs "es-storage").2
     ⟨"storage", sampleConfig⟩ rfl).1⟩

/-- C10: when unpacking the provider configuration fails, the constructor
returns the zero-value builder (every field at its nil default) together
with the unpacking error; on success it returns, with no error, the builder
holding exactly the supplied logger, the unpacked configuration and the
supplied provider. -/
theorem newTemplateBuilder_spec (log : Logger) (cfg : RawConfig) (p : Provider) :
    (∀ e, cfg.unpack = .error e →
        NewTemplateBuilder log cfg p = (⟨none, none, none⟩, some e))
  ∧ (∀ c, cfg.unpack = .ok c →
        NewTemplateBuilder log cfg p = (⟨some p, some log, some c⟩, none)) := by
  constructor <;> intro x h <;> simp [NewTemplateBuilder, h]

/-- Witness for C10: a failing unpack yields the zero-value builder with
the error, a successful unpack yields the populated builder with no
error. -/
theorem newTemplateBuilder_spec_witness :
    (RawConfig.mk (.error (.unpackError "invalid field"))).unpack
        = .error (.unpackError "invalid field")
  ∧ NewTemplateBuilder ⟨"gcp"⟩ ⟨.error (.unpackError "invalid field")⟩ sampleProvider
        = (⟨none, none, none⟩, some (.unpackError "invalid field"))
  ∧ (RawConfig.mk (.ok sampleGcpConfig)).unpack = .ok sampleGcpConfig
  ∧ NewTemplateBuilder ⟨"gcp"⟩ ⟨.ok sampleGcpConfig⟩ sampleProvider
        = (⟨some sampleProvider, some ⟨"gcp"⟩, some sampleGcpConfig⟩, none) :=
  ⟨rfl,
   (newTemplateBuilder_spec ⟨"gcp"⟩ ⟨.error (.unpackError "invalid field")⟩
     sampleProvider).1 _ rfl,
   rfl,
   (newTemplateBuilder_spec ⟨"gcp"⟩ ⟨.ok sampleGcpConfig⟩ sampleProvider).2 _ rfl⟩

/-- A registry enumeration that fails. -/
def failingRegistry : String → Except Err (List String) :=
  fun _ => .error (.notFound "no functions for provider")

/-- A registry enumeration that succeeds with no registered types. -/
def emptyRegistry : String → Except Err (List String) := fun _ => .ok []

/-- A registry enumeration with the two types of the design scenario. -/
def twoTypeRegistry : String → Except Err (List String) :=
  fun _ => .ok ["storage", "pubsub"]

/-- Counterexample to C9: when the registry enumeration fails, the exported
resource listing returns the empty list — a value carrying no error and
identical to the result for a successful enumeration of zero types, so the
failure is swallowed rather than returned to the caller. -/
theorem zipResources_error_swallowed :
    ZipResources failingRegistry = []
  ∧ ZipResources failingRegistry = ZipResources emptyRegistry :=
  ⟨rfl, rfl⟩

/-- Three resources per enumerated type. -/
theorem length_zipResources_flatten (ts : List String) :
    ((ts.map zipResources).flatten).length = 3 * ts.length := by
  induction ts with
  | nil => rfl
  | cons t ts ih =>
    simp [zipResources, ih]
    omega

/-- C9 as amended: a failing registry enumeration makes the exported
resource listing return the empty list with the error swallowed; a
successful enumeration of N types returns the per-type triples concatenated
in enumeration order, three resources per type and 3·N in total. -/
theorem zipResources_enumeration (lf : String → Except Err (List String)) :
    (∀ e, lf "gcp" = .error e → ZipResources lf = [])
  ∧ (∀ ts, lf "gcp" = .ok ts →
      ZipResources lf = (ts.map zipResources).flatten
    ∧ (ZipResources lf).length = 3 * ts.length) := by
  constructor
  · intro e h
    simp [ZipResources, h]
  · intro ts h
    refine ⟨by simp [ZipResources, h], ?_⟩
    simp only [ZipResources, h]
    exact length_zipResources_flatten ts

/-- Witness for C9 as amended: the failing enumeration yields the empty
list, and the storage-and-pubsub enumeration of the design scenario yields
the two grouped triples, six resources in total. -/
theorem zipResources_enumeration_witness :
    failingRegistry "gcp" = .error (.notFound "no functions for provider")
  ∧ ZipResources failingRegistry = []
  ∧ twoTypeRegistry "gcp" = .ok ["storage", "pubsub"]
  ∧ ZipResources twoTypeRegistry
      = (["storage", "pubsub"].map zipResources).flatten
  ∧ (ZipResources twoTypeRegistry).length = 6 :=
  ⟨rfl, (zipResources_enumeration failingRegistry).1 _ rfl, rfl,
   ((zipResources_enumeration twoTypeRegistry).2 _ rfl).1,
   ((zipResources_enumeration twoTypeRegistry).2 _ rfl).2⟩

/-- A slash-free character list splits into itself alone. -/
theorem splitSegs_no_slash (a : List Char) (h : '/' ∉ a) : splitSegs a = [a] := by
  induction a with
  | nil => rfl
  | cons c cs ih =>
    simp only [List.mem_cons, not_or] at h
    rw [splitSegs, if_neg (fun hc => h.1 hc.symm), ih h.2]

/-- Splitting at the first slash peels off the slash-free head segment. -/
theorem splitSegs_append (a b : List Char) (h : '/' ∉ a) :
    splitSegs (a ++ '/' :: b) = a :: splitSegs b := by
  induction a with
  | nil => simp [splitSegs]
  | cons c cs ih =>
    simp only [List.mem_cons, not_or] at h
    rw [List.cons_append, splitSegs, if_neg (fun hc => h.1 hc.symm), ih h.2]

/-- A segment that is not empty, dot or dot-dot is simply pushed. -/
theorem cleanPush_plain (acc : List (List Char)) (seg : List Char)
    (h1 : seg ≠ []) (h2 : seg ≠ ['.']) (h3 : seg ≠ ['.', '.']) :
    cleanPush acc seg = seg :: acc := by
  simp [cleanPush, h1, h2, h3]

/-- Unequal strings have unequal character lists. -/
theorem data_ne_of_ne (t s : String) (h : t ≠ s) : t.data ≠ s.data :=
  fun hh => h (String.ext hh)

/-- Joining pkg, a plain directory name and a plain file name gives the
expected two-level relative path: on such segments the path cleaner is the
identity. -/
theorem filepathJoin_three (t f : String)
    (ht : '/' ∉ t.data) (ht1 : t.data ≠ []) (ht2 : t.data ≠ ['.'])
    (ht3 : t.data ≠ ['.', '.'])
    (hf : '/' ∉ f.data) (hf1 : f.data ≠ []) (hf2 : f.data ≠ ['.'])
    (hf3 : f.data ≠ ['.', '.']) :
    filepathJoin ["pkg", t, f] = "pkg/" ++ t ++ "/" ++ f := by
  rw [filepathJoin, if_neg (by decide)]
  show filepathClean ("pkg" ++ "/" ++ (t ++ "/" ++ f)) = _
  have hdata : ("pkg" ++ "/" ++ (t ++ "/" ++ f)).data
      = "pkg".data ++ '/' :: (t.data ++ '/' :: f.data) := by
    simp [String.data_append]
  have hsegs : splitSegs ("pkg" ++ "/" ++ (t ++ "/" ++ f)).data
      = ["pkg".data, t.data, f.data] := by
    rw [hdata, splitSegs_append _ _ (by decide), splitSegs_append _ _ ht,
      splitSegs_no_slash _ hf]
  have hfold : ((splitSegs ("pkg" ++ "/" ++ (t ++ "/" ++ f)).data).foldl
        cleanPush []).reverse = ["pkg".data, t.data, f.data] := by
    rw [hsegs]
    show (cleanPush (cleanPush (cleanPush [] "pkg".data) t.data) f.data).reverse = _
    rw [cleanPush_plain [] "pkg".data (by decide) (by decide) (by decide),
      cleanPush_plain ["pkg".data] t.data ht1 ht2 ht3,
      cleanPush_plain [t.data, "pkg".data] f.data hf1 hf2 hf3]
    rfl
  simp only [filepathClean, hfold]
  rw [if_neg (by simp)]
  rfl

/-- A successful archive run preserves, entry by entry, the path and mode
of the resources it was given. -/
theorem MakeZip_ok_map (fs : String → Option (List Nat)) :
    ∀ (rs : List LocalFile) (es : List ArchiveEntry), MakeZip fs rs = .ok es →
      es.map (fun e => (e.path, e.mode)) = rs.map (fun r => (r.path, r.fileMode)) := by
  intro rs
  induction rs with
  | nil =>
    intro es h
    simp only [MakeZip] at h
    cases h
    rfl
  | cons r rest ih =>
    intro es h
    rcases hfs : fs r.path with _ | content
    · simp only [MakeZip, hfs] at h
      exact Except.noConfusion h
    · simp only [MakeZip, hfs] at h
      rcases hz : MakeZip fs rest with e | es2
      · simp only [hz] at h
        exact Except.noConfusion h
      · simp only [hz] at h
        cases h
        simp [ih es2 hz]

/-- The three resources of a plain type name, with their joined paths in
explicit form. -/
theorem zipResources_simple (t : String) (h1 : '/' ∉ t.data) (h2 : t ≠ "")
    (h3 : t ≠ ".") (h4 : t ≠ "..") :
    zipResources t
      = [⟨"pkg/" ++ t ++ "/" ++ (t ++ ".go"), 0o755⟩,
         ⟨"pkg/" ++ t ++ "/" ++ "go.mod", 0o655⟩,
         ⟨"pkg/" ++ t ++ "/" ++ "go.sum", 0o655⟩] := by
  have hgo : (t ++ ".go").data = t.data ++ ['.', 'g', 'o'] := String.data_append t ".go"
  have hgoSlash : '/' ∉ (t ++ ".go").data := by
    rw [hgo]
    intro hm
    rcases List.mem_append.mp hm with hm1 | hm2
    · exact h1 hm1
    · exact (by decide : '/' ∉ (['.', 'g', 'o'] : List Char)) hm2
  have hgoNe1 : (t ++ ".go").data ≠ [] := by
    rw [hgo]
    simp
  have hgoNe2 : (t ++ ".go").data ≠ ['.'] := by
    rw [hgo]
    intro hh
    have hl := congrArg List.length hh
    simp only [List.length_append, List.length_cons, List.length_nil] at hl
    omega
  have hgoNe3 : (t ++ ".go").data ≠ ['.', '.'] := by
    rw [hgo]
    intro hh
    have hl := congrArg List.length hh
    simp only [List.length_append, List.length_cons, List.length_nil] at hl
    omega
  rw [zipResources,
    filepathJoin_three t (t ++ ".go") h1 (data_ne_of_ne t "" h2) (data_ne_of_ne t "." h3) (data_ne_of_ne t ".." h4) hgoSlash hgoNe1 hgoNe2 hgoNe3,
    filepathJoin_three t "go.mod" h1 (data_ne_of_ne t "" h2) (data_ne_of_ne t "." h3) (data_ne_of_ne t ".." h4)
      (by decide) (by decide) (by decide) (by decide),
    filepathJoin_three t "go.sum" h1 (data_ne_of_ne t "" h2) (data_ne_of_ne t "." h3) (data_ne_of_ne t ".." h4)
      (by decide) (by decide) (by decide) (by decide)]

/-- A successful build with a resolved function inverts into a successful
archive run whose output, paired with the rendered body, is the returned
function data. -/
theorem execute_ok_inv (p : Provider) (gcpConfig : Config)
    (fs : String → Option (List Nat)) (name : String) (fn : InstallerFn)
    (fd : FunctionData) (hfn : findFunction p name = .ok fn)
    (hex : execute p gcpConfig fs name = .ok fd) :
    ∃ raw, MakeZip fs (zipResources fn.name) = .ok raw
      ∧ fd = ⟨raw, requestBody gcpConfig name fn.config⟩ := by
  simp only [execute, hfn] at hex
  rcases hz : MakeZip fs (zipResources fn.name) with e | raw
  · simp only [hz] at hex
    exact Except.noConfusion hex
  · simp only [hz] at hex
    injection hex with h2
    exact ⟨raw, rfl, h2.symm⟩

/-- C1: whenever a build succeeds, the archive it returns consists of
exactly three entries determined by the resolved function's type name
alone — the source file of the type under its pkg directory with mode 0755
and the two dependency manifests with mode 0655. -/
theorem build_archive_files (p : Provider) (gcpConfig : Config)
    (fs : String → Option (List Nat)) (name : String) (fn : InstallerFn)
    (fd : FunctionData)
    (h1 : '/' ∉ fn.name.data) (h2 : fn.name ≠ "") (h3 : fn.name ≠ ".")
    (h4 : fn.name ≠ "..")
    (hfn : findFunction p name = .ok fn)
    (hex : execute p gcpConfig fs name = .ok fd) :
    fd.raw.map (fun e => (e.path, e.mode))
      = [("pkg/" ++ fn.name ++ "/" ++ (fn.name ++ ".go"), 0o755),
         ("pkg/" ++ fn.name ++ "/" ++ "go.mod", 0o655),
         ("pkg/" ++ fn.name ++ "/" ++ "go.sum", 0o655)] := by
  obtain ⟨raw, hz, hfd⟩ :=
    execute_ok_inv p gcpConfig fs name fn fd hfn hex
  subst hfd
  have hm := MakeZip_ok_map fs _ _ hz
  rw [zipResources_simple fn.name h1 h2 h3 h4] at hm
  simpa using hm

/-- The function data the sample build produces: the three storage files
with their contents, plus the rendered body. -/
def sampleFunctionData : FunctionData :=
  ⟨[⟨"pkg/storage/storage.go", 0o755, [1, 2]⟩,
    ⟨"pkg/storage/go.mod", 0o655, [3]⟩,
    ⟨"pkg/storage/go.sum", 0o655, [4]⟩],
   requestBody sampleGcpConfig "es-storage" sampleConfig⟩

/-- Witness for C1: the es-storage build succeeds against the sample
registry and filesystem, and its archive holds exactly the three storage
entries. -/
theorem build_archive_files_witness :
    ('/' ∉ "storage".data ∧ "storage" ≠ "" ∧ "storage" ≠ "." ∧ "storage" ≠ "..")
  ∧ findFunction sampleProvider "es-storage" = .ok ⟨"storage", sampleConfig⟩
  ∧ execute sampleProvider sampleGcpConfig sampleFs "es-storage"
      = .ok sampleFunctionData
  ∧ sampleFunctionData.raw.map (fun e => (e.path, e.mode))
      = [("pkg/" ++ "storage" ++ "/" ++ ("storage" ++ ".go"), 0o755),
         ("pkg/" ++ "storage" ++ "/" ++ "go.mod", 0o655),
         ("pkg/" ++ "storage" ++ "/" ++ "go.sum", 0o655)] :=
  ⟨⟨by decide, by decide, by decide, by decide⟩, rfl, rfl,
   build_archive_files sampleProvider sampleGcpConfig sampleFs "es-storage"
     ⟨"storage", sampleConfig⟩ sampleFunctionData (by decide) (by decide)
     (by decide) (by decide) rfl rfl⟩

end GcpTemplateBuilder
